import Mathlib

/-!
Shallow embedding of `src/samples/rust/src/main.rs` (the sample order-processing
application). Rust `f64` values are modelled as exact rationals `ℚ`: every claim
below is about the data flow of the arithmetic (which multiplications and
comparisons happen), not about binary rounding. Rust unsigned integers (`u32`,
`usize`) are modelled as `ℕ`; `u32::saturating_sub` is truncated subtraction on
`ℕ`. The `HashMap<String, u32>` inventory is modelled extensionally as a total
function `String → ℕ` with absent keys reading as `0`, exactly the observable
behaviour of `get_stock`/`reserve`. The `Logger`, which prints leveled lines, is
modelled by accumulating the emitted `(level, message)` pairs in a list.
-/

namespace Sample

structure FeatureFlags where
  enable_discounts : Bool
  enable_loyalty_points : Bool
  max_order_items : Nat
  discount_threshold : ℚ
deriving Repr, DecidableEq

structure AppConfig where
  environment : String
  region : String
  features : FeatureFlags
deriving Repr, DecidableEq

inductive LoyaltyTier where
  | Bronze
  | Silver
  | Gold
  | Platinum
deriving Repr, DecidableEq

structure Address where
  street : String
  city : String
  state : String
  zip_code : String
  country : String
deriving Repr, DecidableEq

structure Customer where
  id : String
  name : String
  email : String
  loyalty_tier : LoyaltyTier
  loyalty_points : Nat
  address : Address
deriving Repr, DecidableEq

structure OrderItem where
  sku : String
  name : String
  quantity : Nat
  unit_price : ℚ
deriving Repr, DecidableEq

structure Order where
  order_id : String
  customer_name : String
  items : List OrderItem
deriving Repr, DecidableEq

/-- One line emitted by `Logger::log`: the level string and the message. -/
structure LogEntry where
  level : String
  message : String
deriving Repr, DecidableEq

/-- The inventory map of `InventoryService`, viewed extensionally: a SKU that
was never inserted maps to `0`, matching `get_stock`'s `unwrap_or(&0)`. -/
def Inventory : Type := String → Nat

/-- `InventoryService::get_stock`: the mapped quantity, or 0 for an unknown SKU. -/
def get_stock (inv : Inventory) (sku : String) : Nat := inv sku

/-- `InventoryService::reserve`: stores `current.saturating_sub(quantity)` for
`sku` and emits the debug line reporting the reserved amount and the remainder.
Returns the updated map together with the emitted log entry. -/
def reserve (inv : Inventory) (sku : String) (quantity : Nat) :
    Inventory × LogEntry :=
  let current := get_stock inv sku
  (fun s => if s = sku then current - quantity else inv s,
   ⟨"DEBUG", "Reserved " ++ toString quantity ++ " of " ++ sku ++
      ", remaining: " ++ toString (current - quantity)⟩)

/-- `PricingService::calculate_subtotal`: sum over items of `quantity * unit_price`. -/
def calculate_subtotal (order : Order) : ℚ :=
  (order.items.map (fun item => (item.quantity : ℚ) * item.unit_price)).sum

/-- `PricingService::calculate_tax`: rate 0.08 for region `"us-west-2"`, else 0.10. -/
def calculate_tax (config : AppConfig) (subtotal : ℚ) : ℚ :=
  let tax_rate : ℚ := if config.region = "us-west-2" then 0.08 else 0.10
  subtotal * tax_rate

/-- `PricingService::calculate_discount`: feature-flag gate, then threshold
gate, then tier-rate lookup. -/
def calculate_discount (config : AppConfig) (order : Order) (customer : Customer) : ℚ :=
  if !config.features.enable_discounts then 0
  else
    let subtotal := calculate_subtotal order
    if subtotal < config.features.discount_threshold then 0
    else
      let discount_rate : ℚ :=
        match customer.loyalty_tier with
        | .Platinum => 0.15
        | .Gold => 0.10
        | .Silver => 0.05
        | .Bronze => 0
      subtotal * discount_rate

/-- `ValidationError(String)`. -/
structure ValidationError where
  message : String
deriving Repr, DecidableEq

/-- `OrderService::validate_order`: four checks in source order, first failure wins. -/
def validate_order (config : AppConfig) (order : Order) :
    Except ValidationError Unit :=
  if order.order_id = "" then
    .error ⟨"Order ID is required"⟩
  else if order.customer_name = "" then
    .error ⟨"Customer name is required"⟩
  else if order.items = [] then
    .error ⟨"Order must have at least one item"⟩
  else if order.items.length > config.features.max_order_items then
    .error ⟨"Order exceeds max items (" ++ toString config.features.max_order_items ++ ")"⟩
  else
    .ok ()

/-- One iteration of `process_order`'s inventory loop: warn (only) on a stock
shortfall, then unconditionally reserve the requested quantity. The accumulator
carries the inventory map and the log lines emitted so far. -/
def inventoryStep (st : Inventory × List LogEntry) (item : OrderItem) :
    Inventory × List LogEntry :=
  let stock := get_stock st.1 item.sku
  let warned :=
    if stock < item.quantity then
      st.2 ++ [⟨"WARN", "Low stock for " ++ item.sku ++ ": " ++ toString stock ++
        " < " ++ toString item.quantity⟩]
    else st.2
  let r := reserve st.1 item.sku item.quantity
  (r.1, warned ++ [r.2])

/-- The Rust cast `x as u32` on a (non-NaN) `f64`: truncate toward zero and
saturate into `[0, 2^32 - 1]`. For the rational model this is
`min ⌊x⌋.toNat (2^32 - 1)` (truncation toward zero and flooring agree after
clamping negatives to zero). -/
def f64AsU32 (x : ℚ) : Nat := min (Int.toNat ⌊x⌋) (2 ^ 32 - 1)

/-- The loyalty-points expression of `process_order`:
`if enable_loyalty_points { (subtotal * 10.0) as u32 } else { 0 }`. -/
def loyaltyPointsOf (config : AppConfig) (subtotal : ℚ) : Nat :=
  if config.features.enable_loyalty_points then f64AsU32 (subtotal * 10) else 0

/-- Two-decimal currency rendering, modelling Rust's `{:.2}` float formatting
(rounds the value to the nearest hundredth; exact ties, which do not occur for
the values exercised here, round up). -/
def formatMoney (x : ℚ) : String :=
  let cents : Int := round (x * 100)
  let n := cents.natAbs
  let sign := if cents < 0 then "-" else ""
  let frac := n % 100
  sign ++ toString (n / 100) ++ "." ++
    (if frac < 10 then "0" ++ toString frac else toString frac)

/-- The success string built by `process_order`. -/
def resultString (config : AppConfig) (order : Order) (customer : Customer) : String :=
  let subtotal := calculate_subtotal order
  let tax := calculate_tax config subtotal
  let discount := calculate_discount config order customer
  let loyalty_points := loyaltyPointsOf config subtotal
  let final_total := subtotal + tax - discount
  "Processed - Subtotal: $" ++ formatMoney subtotal ++
    ", Tax: $" ++ formatMoney tax ++
    ", Discount: $" ++ formatMoney discount ++
    ", Points: " ++ toString loyalty_points ++
    ", Final: $" ++ formatMoney final_total

/-- The outcome of `OrderService::process_order`: the returned
`Result<String, ValidationError>`, the inventory map afterwards, and the log
lines emitted during the call, in order. -/
structure ProcOutcome where
  res : Except ValidationError String
  inv : Inventory
  logs : List LogEntry

/-- `OrderService::process_order`: validate (aborting on failure with the
inventory untouched and nothing logged), log the validated line, run the
inventory loop over the items in list order, compute subtotal → tax → discount
→ loyalty points → final total, format the result, log it at info level and
return it. -/
def process_order (config : AppConfig) (inv : Inventory) (order : Order)
    (customer : Customer) : ProcOutcome :=
  match validate_order config order with
  | .error e => ⟨.error e, inv, []⟩
  | .ok _ =>
    let log0 : List LogEntry :=
      [⟨"DEBUG", "Order " ++ order.order_id ++ " validated"⟩]
    let passed := order.items.foldl inventoryStep (inv, log0)
    let result := resultString config order customer
    ⟨.ok result, passed.1, passed.2 ++ [⟨"INFO", result⟩]⟩

/-- `NetworkError { message, code, host, port }`. -/
structure NetworkError where
  message : String
  code : Int
  host : Option String
  port : Option Nat
deriving Repr, DecidableEq

/-- `DataAccessError { message, source }`. The boxed `dyn Error` cause is
modelled as an optional `NetworkError`, the only error type the program ever
boxes there; the consumer walks exactly one level to it. -/
structure DataAccessError where
  message : String
  cause : Option NetworkError
deriving Repr, DecidableEq

/-- `simulate_database_failure`: unconditionally builds the fixed
`NetworkError` and returns a `DataAccessError` wrapping it. -/
def simulate_database_failure : Except DataAccessError Unit :=
  let network_err : NetworkError :=
    { message := "Connection refused to db-server:5432"
      code := 10061
      host := some "db-server"
      port := some 5432 }
  .error { message := "Failed to execute query on Orders table"
           cause := some network_err }

/-! Sample data constructed in `main`, used as concrete witnesses. -/

/-- The configuration built in `main`. -/
def mainConfig : AppConfig :=
  { environment := "Development"
    region := "us-west-2"
    features :=
      { enable_discounts := true
        enable_loyalty_points := true
        max_order_items := 100
        discount_threshold := 100 } }

/-- The starting inventory of `InventoryService::new`. -/
def initialInventory : Inventory := fun sku =>
  if sku = "SKU-100" then 10
  else if sku = "SKU-101" then 5
  else if sku = "SKU-102" then 2
  else 0

/-- The customer built in `main`. -/
def alice : Customer :=
  { id := "CUST-001"
    name := "Alice Johnson"
    email := "alice@example.com"
    loyalty_tier := .Gold
    loyalty_points := 5420
    address :=
      { street := "123 Main St"
        city := "Seattle"
        state := "WA"
        zip_code := "98101"
        country := "US" } }

/-- `order1` from `main`: qty 2 @ 19.99 and qty 1 @ 49.99. -/
def order1 : Order :=
  { order_id := "ORD-001"
    customer_name := "Alice"
    items :=
      [ { sku := "SKU-100", name := "Widget", quantity := 2, unit_price := 19.99 }
      , { sku := "SKU-101", name := "Gadget", quantity := 1, unit_price := 49.99 } ] }

/-- `order2` from `main`: qty 5 @ 19.99 and qty 3 @ 29.99. -/
def order2 : Order :=
  { order_id := "ORD-002"
    customer_name := "Bob"
    items :=
      [ { sku := "SKU-100", name := "Widget", quantity := 5, unit_price := 19.99 }
      , { sku := "SKU-102", name := "Gizmo", quantity := 3, unit_price := 29.99 } ] }

/-- `bad_order` from `main`: empty customer name and empty item list. -/
def bad_order : Order :=
  { order_id := "ORD-003"
    customer_name := ""
    items := [] }

/-! Helper notions used to state the claims. -/

/-- Total quantity requested for `sku` across an item list (several items may
share a SKU). -/
def sumQty (items : List OrderItem) (sku : String) : Nat :=
  (items.map (fun item => if item.sku = sku then item.quantity else 0)).sum

/-- Specification-side rendering of the inventory pass (§4.4 step 2 of the
spec): walking the items in list order, each item first yields a warning line
exactly when the current stock is strictly below the requested quantity, then
the reservation of the full requested quantity happens unconditionally with its
debug line, and the pass continues on the updated inventory. -/
def specInventoryLogs : Inventory → List OrderItem → List LogEntry
  | _, [] => []
  | inv, item :: rest =>
    (if get_stock inv item.sku < item.quantity then
      [⟨"WARN", "Low stock for " ++ item.sku ++ ": " ++
        toString (get_stock inv item.sku) ++ " < " ++ toString item.quantity⟩]
     else [])
    ++ (reserve inv item.sku item.quantity).2 ::
      specInventoryLogs (reserve inv item.sku item.quantity).1 rest

theorem foldl_inventoryStep_fst (items : List OrderItem)
    (acc : Inventory × List LogEntry) (sku : String) :
    (items.foldl inventoryStep acc).1 sku = acc.1 sku - sumQty items sku := by
  induction items generalizing acc with
  | nil => simp [sumQty]
  | cons item rest ih =>
    rw [List.foldl_cons, ih]
    simp only [inventoryStep, reserve, get_stock, sumQty, List.map_cons, List.sum_cons]
    by_cases h : sku = item.sku
    · subst h
      simp [Nat.sub_sub]
    · have h2 : ¬ item.sku = sku := fun hh => h hh.symm
      simp [h, h2]

theorem foldl_inventoryStep_snd (items : List OrderItem)
    (acc : Inventory × List LogEntry) :
    (items.foldl inventoryStep acc).2 = acc.2 ++ specInventoryLogs acc.1 items := by
  induction items generalizing acc with
  | nil => simp [specInventoryLogs]
  | cons item rest ih =>
    rw [List.foldl_cons, ih]
    simp only [inventoryStep, specInventoryLogs, reserve, get_stock]
    by_cases h : acc.1 item.sku < item.quantity <;>
      simp [h, List.append_assoc]

theorem foldl_inventoryStep_fst_eq (items : List OrderItem)
    (acc : Inventory × List LogEntry) :
    (items.foldl inventoryStep acc).1 =
      items.foldl (fun i item => (reserve i item.sku item.quantity).1) acc.1 := by
  induction items generalizing acc with
  | nil => rfl
  | cons item rest ih =>
    rw [List.foldl_cons, List.foldl_cons, ih]
    rfl

/-- Claim C2: `calculate_discount` returns exactly 0 when `enable_discounts`
is false; otherwise it returns 0 when the subtotal is strictly below
`discount_threshold` (whatever the tier), and otherwise returns the subtotal
multiplied by the tier rate 0.15 / 0.10 / 0.05 / 0 for Platinum / Gold /
Silver / Bronze. -/
theorem calculate_discount_spec (config : AppConfig) (order : Order)
    (customer : Customer) :
    (config.features.enable_discounts = false →
      calculate_discount config order customer = 0)
  ∧ (calculate_subtotal order < config.features.discount_threshold →
      calculate_discount config order customer = 0)
  ∧ (config.features.enable_discounts = true →
      config.features.discount_threshold ≤ calculate_subtotal order →
      calculate_discount config order customer =
        calculate_subtotal order *
          (match customer.loyalty_tier with
           | .Platinum => (0.15 : ℚ)
           | .Gold => 0.10
           | .Silver => 0.05
           | .Bronze => 0)) := by
  refine ⟨fun hd => ?_, fun hlt => ?_, fun hd hge => ?_⟩
  · simp [calculate_discount, hd]
  · by_cases hd : config.features.enable_discounts <;>
      simp [calculate_discount, hd, hlt]
  · simp [calculate_discount, hd, not_lt.mpr hge]

/-- An order whose subtotal is exactly 100: five units at 20.00. -/
def bigOrder : Order :=
  { order_id := "ORD-BIG"
    customer_name := "Alice"
    items := [{ sku := "SKU-100", name := "Widget", quantity := 5, unit_price := 20 }] }

/-- Witness for C2 at concrete data: discounts enabled, threshold 100,
subtotal 100, Gold tier, so the discount is 10. -/
theorem calculate_discount_spec_witness :
    calculate_discount mainConfig bigOrder alice = 10 := by
  have h := (calculate_discount_spec mainConfig bigOrder alice).2.2
    (by with_unfolding_all rfl)
    (by norm_num [calculate_subtotal, bigOrder, mainConfig])
  rw [h]
  norm_num [calculate_subtotal, bigOrder, alice]

/-- Claim C3: `reserve` stores `max(current - quantity, 0)` for the requested
SKU (saturating subtraction, shown over `ℤ`), leaves every other SKU alone,
always succeeds (it is a total function into `Inventory × LogEntry`), and every
stored quantity — after `reserve` and after any `process_order` call — is
non-negative. -/
theorem reserve_saturating_spec (inv : Inventory) (sku : String) (quantity : Nat) :
    ((reserve inv sku quantity).1 sku = get_stock inv sku - quantity)
  ∧ (((reserve inv sku quantity).1 sku : ℤ) =
      max ((get_stock inv sku : ℤ) - (quantity : ℤ)) 0)
  ∧ (∀ s, s ≠ sku → (reserve inv sku quantity).1 s = inv s)
  ∧ (∀ s, (0 : ℤ) ≤ ((reserve inv sku quantity).1 s : ℤ))
  ∧ (∀ config order customer s,
      (0 : ℤ) ≤ (((process_order config inv order customer).inv) s : ℤ)) := by
  refine ⟨by simp [reserve], ?_, fun s hs => by simp [reserve, hs], ?_, ?_⟩
  · have h : (reserve inv sku quantity).1 sku = inv sku - quantity := by
      simp [reserve, get_stock]
    rw [h]
    simp only [get_stock]
    omega
  · intro s
    exact Int.natCast_nonneg _
  · intro config order customer s
    exact Int.natCast_nonneg _

/-- Witness for C3: reserving 7 of SKU-101 (stock 5) clamps the stock to 0 and
leaves SKU-100 untouched. -/
theorem reserve_saturating_spec_witness :
    (reserve initialInventory "SKU-101" 7).1 "SKU-101" = 0
  ∧ (reserve initialInventory "SKU-101" 7).1 "SKU-100" = 10 := by
  have h := reserve_saturating_spec initialInventory "SKU-101" 7
  exact ⟨h.1.trans (by with_unfolding_all rfl),
    (h.2.2.1 "SKU-100" (by decide)).trans (by with_unfolding_all rfl)⟩

/-- Claim C7: `calculate_tax` multiplies the subtotal by 0.08 exactly when the
configured region is the string "us-west-2" and by 0.10 for every other region
string, and never fails (it is a total function); in particular the tax on
100 is 8 for "us-west-2" and 10 for any other region. -/
theorem calculate_tax_spec (config : AppConfig) (subtotal : ℚ) :
    (calculate_tax config subtotal =
      subtotal * (if config.region = "us-west-2" then (0.08 : ℚ) else 0.10))
  ∧ (config.region = "us-west-2" → calculate_tax config 100 = 8)
  ∧ (config.region ≠ "us-west-2" → calculate_tax config 100 = 10) := by
  refine ⟨rfl, fun h => ?_, fun h => ?_⟩
  · simp only [calculate_tax, if_pos h]
    norm_num
  · simp only [calculate_tax, if_neg h]
    norm_num

/-- Witness for C7: the main configuration has region "us-west-2", so the tax
on 100 is 8; with region "eu-west-1" it is 10. -/
theorem calculate_tax_spec_witness :
    calculate_tax mainConfig 100 = 8
  ∧ calculate_tax { mainConfig with region := "eu-west-1" } 100 = 10 :=
  ⟨(calculate_tax_spec mainConfig 100).2.1 rfl,
   (calculate_tax_spec { mainConfig with region := "eu-west-1" } 100).2.2
     (by decide)⟩

/-- Claim C9: `simulate_database_failure` never succeeds and always returns the
fixed `DataAccessError` with message "Failed to execute query on Orders table",
whose cause is a `NetworkError` with code 10061, host `some "db-server"`, port
`some 5432`, and a message containing "db-server" as a substring; the top-level
message and the cause's message are separately retrievable projections. -/
theorem simulate_database_failure_spec :
    simulate_database_failure.isOk = false
  ∧ ∃ e, simulate_database_failure = .error e
      ∧ e.message = "Failed to execute query on Orders table"
      ∧ ∃ ne, e.cause = some ne
          ∧ ne.code = 10061
          ∧ ne.host = some "db-server"
          ∧ ne.port = some 5432
          ∧ ∃ p s, ne.message = p ++ "db-server" ++ s := by
  refine ⟨rfl, _, rfl, rfl, _, rfl, rfl, rfl, rfl,
    "Connection refused to ", ":5432", ?_⟩
  rfl

/-- Claim C10 (implicit): `validate_order` checks its conditions in a fixed
priority order — empty order id, then empty customer name, then empty item
list, then item count above the maximum — so an order violating several
conditions fails with the message of the first violated one; when no condition
is violated it returns `ok`. -/
theorem validate_order_priority (config : AppConfig) (order : Order) :
    (order.order_id = "" →
      validate_order config order = .error ⟨"Order ID is required"⟩)
  ∧ (order.order_id ≠ "" → order.customer_name = "" →
      validate_order config order = .error ⟨"Customer name is required"⟩)
  ∧ (order.order_id ≠ "" → order.customer_name ≠ "" → order.items = [] →
      validate_order config order = .error ⟨"Order must have at least one item"⟩)
  ∧ (order.order_id ≠ "" → order.customer_name ≠ "" → order.items ≠ [] →
      order.items.length > config.features.max_order_items →
      validate_order config order = .error
        ⟨"Order exceeds max items (" ++
          toString config.features.max_order_items ++ ")"⟩)
  ∧ (order.order_id ≠ "" → order.customer_name ≠ "" → order.items ≠ [] →
      ¬ order.items.length > config.features.max_order_items →
      validate_order config order = .ok ()) := by
  refine ⟨fun h1 => ?_, fun h1 h2 => ?_, fun h1 h2 h3 => ?_,
    fun h1 h2 h3 h4 => ?_, fun h1 h2 h3 h4 => ?_⟩
  · simp [validate_order, h1]
  · simp [validate_order, h1, h2]
  · simp [validate_order, h1, h2, h3]
  · simp [validate_order, h1, h2, h3, h4]
  · simp [validate_order, h1, h2, h3, h4]

/-- Witness for C10: an order with empty id AND empty customer name AND no
items fails with the order-id message, the first check in priority order. -/
theorem validate_order_priority_witness :
    validate_order mainConfig { order_id := "", customer_name := "", items := [] } =
      .error ⟨"Order ID is required"⟩ :=
  (validate_order_priority mainConfig
    { order_id := "", customer_name := "", items := [] }).1 rfl

/-- An order with 101 one-unit items, exceeding the configured maximum of 100. -/
def maxOrder : Order :=
  { order_id := "ORD-MAX"
    customer_name := "Alice"
    items := List.replicate 101
      ({ sku := "SKU-100", name := "Widget", quantity := 1, unit_price := 1 } : OrderItem) }

/-- Claim C1: `process_order` fails with a `ValidationError` exactly when the
order id is empty, the customer name is empty, the item list is empty, or the
item count exceeds `max_order_items`; the max-items failure message names the
configured maximum; and every validation failure leaves the inventory map
completely unchanged. -/
theorem process_order_validation_spec (config : AppConfig) (inv : Inventory)
    (order : Order) (customer : Customer) :
    ((∃ e, (process_order config inv order customer).res = .error e) ↔
      (order.order_id = "" ∨ order.customer_name = "" ∨ order.items = [] ∨
        order.items.length > config.features.max_order_items))
  ∧ (∀ e, (process_order config inv order customer).res = .error e →
      (process_order config inv order customer).inv = inv)
  ∧ (order.order_id ≠ "" → order.customer_name ≠ "" → order.items ≠ [] →
      order.items.length > config.features.max_order_items →
      (process_order config inv order customer).res = .error
        ⟨"Order exceeds max items (" ++
          toString config.features.max_order_items ++ ")"⟩) := by
  by_cases h1 : order.order_id = "" <;>
    by_cases h2 : order.customer_name = "" <;>
      by_cases h3 : order.items = [] <;>
        by_cases h4 : order.items.length > config.features.max_order_items <;>
          simp [process_order, validate_order, h1, h2, h3, h4]

/-- Witness for C1: `bad_order` (empty customer name) leaves the inventory
untouched, and a 101-item order fails with a message naming the maximum 100. -/
theorem process_order_validation_spec_witness :
    (process_order mainConfig initialInventory bad_order alice).inv = initialInventory
  ∧ (process_order mainConfig initialInventory maxOrder alice).res =
      .error ⟨"Order exceeds max items (100)"⟩ := by
  refine ⟨(process_order_validation_spec mainConfig initialInventory bad_order alice).2.1
    ⟨"Customer name is required"⟩ (by with_unfolding_all rfl), ?_⟩
  have h := (process_order_validation_spec mainConfig initialInventory maxOrder alice).2.2
    (by decide) (by decide) (by simp [maxOrder]) (by simp [maxOrder, mainConfig])
  rw [h]
  rfl

/-- Claim C4: on success `process_order` returns exactly the formatted string
"Processed - Subtotal: $X.XX, Tax: $X.XX, Discount: $X.XX, Points: N,
Final: $X.XX", each currency value rendered to two decimals, where the tax is
computed from the full subtotal and the final total is
subtotal + tax - discount. -/
theorem process_order_success_format (config : AppConfig) (inv : Inventory)
    (order : Order) (customer : Customer)
    (h : validate_order config order = .ok ()) :
    (process_order config inv order customer).res =
      .ok ("Processed - Subtotal: $" ++ formatMoney (calculate_subtotal order) ++
        ", Tax: $" ++ formatMoney (calculate_tax config (calculate_subtotal order)) ++
        ", Discount: $" ++ formatMoney (calculate_discount config order customer) ++
        ", Points: " ++ toString (loyaltyPointsOf config (calculate_subtotal order)) ++
        ", Final: $" ++ formatMoney (calculate_subtotal order +
          calculate_tax config (calculate_subtotal order) -
          calculate_discount config order customer)) := by
  simp [process_order, h, resultString]

/-- Witness for C4, the end-to-end example of the spec: order1 (2 @ 19.99 and
1 @ 49.99), Gold tier, region "us-west-2", threshold 100: subtotal 89.97 is
below the threshold so the discount is 0, tax is 7.1976, points 899, final
97.1676, rendered with two-decimal currency fields. -/
theorem process_order_success_format_witness :
    (process_order mainConfig initialInventory order1 alice).res =
      .ok "Processed - Subtotal: $89.97, Tax: $7.20, Discount: $0.00, Points: 899, Final: $97.17" := by
  have h := process_order_success_format mainConfig initialInventory order1 alice
    (by with_unfolding_all rfl)
  rw [h]
  with_unfolding_all rfl

/-- Claim C5: for a valid order, the log trace of `process_order` is the
"validated" debug line, then the inventory pass over the items in input order
(`specInventoryLogs`: per item, a warning exactly when the current stock is
strictly below the requested quantity, then the unconditional reservation's
debug line), and only then the info line with the pricing result; moreover the
final inventory is the fold of the unconditional reservations, regardless of
any shortfalls. -/
theorem process_order_inventory_pass (config : AppConfig) (inv : Inventory)
    (order : Order) (customer : Customer)
    (h : validate_order config order = .ok ()) :
    (process_order config inv order customer).logs =
      ⟨"DEBUG", "Order " ++ order.order_id ++ " validated"⟩ ::
        (specInventoryLogs inv order.items ++
          [⟨"INFO", resultString config order customer⟩])
  ∧ (process_order config inv order customer).inv =
      order.items.foldl (fun i item => (reserve i item.sku item.quantity).1) inv := by
  constructor
  · simp only [process_order, h]
    rw [foldl_inventoryStep_snd]
    simp
  · simp only [process_order, h]
    rw [foldl_inventoryStep_fst_eq]

/-- Witness for C5 on order2 against the starting inventory: SKU-100 (stock 10,
requested 5) yields no warning, SKU-102 (stock 2, requested 3) yields the
shortfall warning and is still reserved down to 0; the info line comes last. -/
theorem process_order_inventory_pass_witness :
    (process_order mainConfig initialInventory order2 alice).logs =
      ⟨"DEBUG", "Order ORD-002 validated"⟩ ::
        (specInventoryLogs initialInventory order2.items ++
          [⟨"INFO", resultString mainConfig order2 alice⟩])
  ∧ specInventoryLogs initialInventory order2.items =
      [⟨"DEBUG", "Reserved 5 of SKU-100, remaining: 5"⟩,
       ⟨"WARN", "Low stock for SKU-102: 2 < 3"⟩,
       ⟨"DEBUG", "Reserved 3 of SKU-102, remaining: 0"⟩] :=
  ⟨(process_order_inventory_pass mainConfig initialInventory order2 alice
      (by with_unfolding_all rfl)).1,
   by with_unfolding_all rfl⟩

/-- Claim C6: in the success output, the loyalty points are
floor(subtotal * 10) truncated to u32 (clamped into `[0, 2^32 - 1]`) when
`enable_loyalty_points` is true, and 0 when it is false; and the customer's
stored `loyalty_points` field is never read nor written — replacing it by any
value leaves the entire outcome (result, inventory, logs) unchanged. -/
theorem process_order_loyalty_points (config : AppConfig) (inv : Inventory)
    (order : Order) (customer : Customer) (p : Nat)
    (h : validate_order config order = .ok ()) :
    (∃ pre post, (process_order config inv order customer).res =
       .ok (pre ++ ", Points: " ++ toString
         (if config.features.enable_loyalty_points
          then min (Int.toNat ⌊calculate_subtotal order * 10⌋) (2 ^ 32 - 1)
          else 0) ++ post))
  ∧ process_order config inv order { customer with loyalty_points := p } =
      process_order config inv order customer := by
  constructor
  · refine ⟨"Processed - Subtotal: $" ++ formatMoney (calculate_subtotal order) ++
      ", Tax: $" ++ formatMoney (calculate_tax config (calculate_subtotal order)) ++
      ", Discount: $" ++ formatMoney (calculate_discount config order customer),
      ", Final: $" ++ formatMoney (calculate_subtotal order +
        calculate_tax config (calculate_subtotal order) -
        calculate_discount config order customer), ?_⟩
    simp [process_order, h, resultString, loyaltyPointsOf, f64AsU32,
      String.append_assoc]
  · rfl

/-- Witness for C6: on order1 (subtotal 89.97) the points slot of the output
holds floor(899.7) = 899, and zeroing Alice's 5420 stored points changes
nothing in the outcome. -/
theorem process_order_loyalty_points_witness :
    (∃ pre post, (process_order mainConfig initialInventory order1 alice).res =
       .ok (pre ++ ", Points: " ++ toString
         (if mainConfig.features.enable_loyalty_points
          then min (Int.toNat ⌊calculate_subtotal order1 * 10⌋) (2 ^ 32 - 1)
          else 0) ++ post))
  ∧ process_order mainConfig initialInventory order1 { alice with loyalty_points := 0 } =
      process_order mainConfig initialInventory order1 alice :=
  process_order_loyalty_points mainConfig initialInventory order1 alice 0
    (by with_unfolding_all rfl)

/-- Claim C8: running `process_order` twice in sequence on the same service
state depletes stock cumulatively: each valid call lowers the stock of a SKU
by the total quantity that order requests for it (saturating at zero), the
second call subtracts from the stock the first call already reduced, and stock
never increases between calls (no rollback). -/
theorem process_order_cumulative (config : AppConfig) (inv : Inventory)
    (o1 o2 : Order) (c1 c2 : Customer) (sku : String)
    (h1 : validate_order config o1 = .ok ())
    (h2 : validate_order config o2 = .ok ()) :
    ((process_order config inv o1 c1).inv sku = inv sku - sumQty o1.items sku)
  ∧ ((process_order config ((process_order config inv o1 c1).inv) o2 c2).inv sku =
      (process_order config inv o1 c1).inv sku - sumQty o2.items sku)
  ∧ ((process_order config ((process_order config inv o1 c1).inv) o2 c2).inv sku =
      inv sku - (sumQty o1.items sku + sumQty o2.items sku))
  ∧ ((process_order config ((process_order config inv o1 c1).inv) o2 c2).inv sku ≤
      (process_order config inv o1 c1).inv sku)
  ∧ ((process_order config inv o1 c1).inv sku ≤ inv sku) := by
  have e1 : (process_order config inv o1 c1).inv sku =
      inv sku - sumQty o1.items sku := by
    simp only [process_order, h1]
    exact foldl_inventoryStep_fst _ _ _
  have e2 : ∀ i : Inventory, (process_order config i o2 c2).inv sku =
      i sku - sumQty o2.items sku := by
    intro i
    simp only [process_order, h2]
    exact foldl_inventoryStep_fst _ _ _
  refine ⟨e1, e2 _, ?_, ?_, ?_⟩
  · rw [e2 _, e1, Nat.sub_sub]
  · rw [e2 _]
    exact Nat.sub_le _ _
  · rw [e1]
    exact Nat.sub_le _ _

/-- Witness for C8: order1 then order2 (both touch SKU-100) against the
starting stock of 10: the first call leaves 8, the second subtracts its 5 from
that reduced stock, leaving 3. -/
theorem process_order_cumulative_witness :
    ((process_order mainConfig initialInventory order1 alice).inv "SKU-100" = 8)
  ∧ ((process_order mainConfig
      ((process_order mainConfig initialInventory order1 alice).inv)
      order2 alice).inv "SKU-100" = 3) := by
  have h := process_order_cumulative mainConfig initialInventory order1 order2
    alice alice "SKU-100" (by with_unfolding_all rfl) (by with_unfolding_all rfl)
  exact ⟨h.1.trans (by with_unfolding_all rfl),
    h.2.2.1.trans (by with_unfolding_all rfl)⟩

end Sample
